import Mathlib

/-!
Shallow embedding of the LIS3DE register-access driver (`lis3de_reg.c`).

The driver is a set of accessor functions over an injected byte transport
(`ctx->read_reg` / `ctx->write_reg`).  We model the transport as a pair of
state-passing functions over an abstract state type `σ`: a read returns a
status code together with the bytes the call left in the caller's buffer,
a write returns a status code.  Each driver function is translated to a
function `Transport σ → σ → args → result × σ` mirroring the C control
flow statement by statement.

Device registers are bytes; the C source overlays packed bit-field structs
on the byte read from the transport.  The struct layouts and register
addresses live in `lis3de_reg.h`, which is not part of the given sources;
they are modelled below from the spec (datasheet-fixed mask/shift pairs),
as explicit mask/shift constants per field.
-/

/-- Transport collaborator: raw multi-byte register read / write.
`readf s reg len` returns `((status, bytes), s')` where `bytes` is the
content the call left in the caller's buffer; `writef s reg data` returns
`(status, s')`.  Status `0` means no error. -/
structure Transport (σ : Type) where
  readf : σ → Nat → Nat → (Int × List Nat) × σ
  writef : σ → Nat → List Nat → Int × σ

/-- Transport events, for observing the sequence of bus calls. -/
inductive Ev where
  | rd : Nat → Nat → Ev
  | wr : Nat → List Nat → Ev
deriving DecidableEq, Repr

/-- Wrap a transport so that every call is appended to an event log. -/
def recording {σ : Type} (T : Transport σ) : Transport (σ × List Ev) where
  readf := fun sl reg len =>
    let r := T.readf sl.1 reg len
    (r.1, (r.2, sl.2 ++ [Ev.rd reg len]))
  writef := fun sl reg data =>
    let r := T.writef sl.1 reg data
    (r.1, (r.2, sl.2 ++ [Ev.wr reg data]))

/-- `lis3de_read_reg`: forwards to the transport's read. -/
def lis3de_read_reg {σ : Type} (T : Transport σ) (s : σ) (reg : Nat)
    (len : Nat) : (Int × List Nat) × σ :=
  T.readf s reg len

/-- `lis3de_write_reg`: forwards to the transport's write. -/
def lis3de_write_reg {σ : Type} (T : Transport σ) (s : σ) (reg : Nat)
    (data : List Nat) : Int × σ :=
  T.writef s reg data

/-! Register addresses.  Modelled from the spec: the fixed device register
map of `lis3de_reg.h` (not under the given sources), §6 of the spec. -/

def LIS3DE_STATUS_REG_AUX : Nat := 0x07
def LIS3DE_OUT_ADC1_L : Nat := 0x08
def LIS3DE_OUT_ADC1_H : Nat := 0x09
def LIS3DE_WHO_AM_I : Nat := 0x0F
def LIS3DE_TEMP_CFG_REG : Nat := 0x1F
def LIS3DE_CTRL_REG1 : Nat := 0x20
def LIS3DE_CTRL_REG2 : Nat := 0x21
def LIS3DE_CTRL_REG4 : Nat := 0x23
def LIS3DE_REFERENCE : Nat := 0x26
def LIS3DE_STATUS_REG : Nat := 0x27
def LIS3DE_OUT_X : Nat := 0x29
def LIS3DE_OUT_Y : Nat := 0x2B
def LIS3DE_OUT_Z : Nat := 0x2D
def LIS3DE_FIFO_CTRL_REG : Nat := 0x2E

def PROPERTY_ENABLE : Nat := 1
def PROPERTY_DISABLE : Nat := 0

/-! Packed bit-field overlays.  Modelled from the spec: the source casts
packed-bit structs over the single byte read from the transport; per spec
§9 we reimplement them as explicit mask/shift pairs per field operating on
a byte value. -/

/-- Extract the `w`-bit field at bit offset `lo` of byte `b`. -/
def getBits (b lo w : Nat) : Nat := (b >>> lo) &&& (2 ^ w - 1)

/-- Store `v` (truncated to `w` bits, as a C bit-field assignment does)
into the field at bit offset `lo` of byte `b`, leaving other bits. -/
def setBits (b lo w v : Nat) : Nat :=
  (b &&& (255 ^^^ ((2 ^ w - 1) <<< lo))) ||| ((v &&& (2 ^ w - 1)) <<< lo)

/-- First byte of a transport read buffer, as the `uint8_t` the C code
overlays its struct on. -/
def byte0 (buf : List Nat) : Nat := buf.getD 0 0 % 256

/-- Byte `i` of a transport read buffer (`uint8_t buff[i]`). -/
def byteAt (buf : List Nat) (i : Nat) : Nat := buf.getD i 0 % 256

/-- Reinterpret a byte as C `int8_t` (two's complement). -/
def toInt8 (n : Nat) : Int :=
  if n % 256 < 128 then (n % 256 : Int) else (n % 256 : Int) - 256

/-- Narrowing conversion of a nonnegative value to C `int16_t`
(two's complement wrap-around). -/
def toInt16 (n : Nat) : Int :=
  if n % 65536 < 32768 then (n % 65536 : Int) else (n % 65536 : Int) - 65536

/-! Enumerated settings.  Modelled from the spec: the closed enumerations
of `lis3de_reg.h`, each symbolic value mapped 1:1 to its bitfield code. -/

/-- `lis3de_temp_en_t`: auxiliary-ADC configuration. -/
inductive lis3de_temp_en_t where
  | LIS3DE_AUX_DISABLE
  | LIS3DE_AUX_ON_TEMPERATURE
  | LIS3DE_AUX_ON_PADS
deriving DecidableEq, Repr, Fintype

open lis3de_temp_en_t

/-- Numeric code of a `lis3de_temp_en_t` value. -/
def tempEnCode : lis3de_temp_en_t → Nat
  | LIS3DE_AUX_DISABLE => 0
  | LIS3DE_AUX_ON_TEMPERATURE => 3
  | LIS3DE_AUX_ON_PADS => 1

/-- `lis3de_odr_t`: output data rate codes, field `odr` of CTRL_REG1. -/
inductive lis3de_odr_t where
  | LIS3DE_POWER_DOWN
  | LIS3DE_ODR_1Hz
  | LIS3DE_ODR_10Hz
  | LIS3DE_ODR_25Hz
  | LIS3DE_ODR_50Hz
  | LIS3DE_ODR_100Hz
  | LIS3DE_ODR_200Hz
  | LIS3DE_ODR_400Hz
  | LIS3DE_ODR_1kHz6
  | LIS3DE_ODR_5kHz376_LP_1kHz344_NM
deriving DecidableEq, Repr, Fintype

open lis3de_odr_t

/-- Numeric code of a `lis3de_odr_t` value. -/
def odrCode : lis3de_odr_t → Nat
  | LIS3DE_POWER_DOWN => 0
  | LIS3DE_ODR_1Hz => 1
  | LIS3DE_ODR_10Hz => 2
  | LIS3DE_ODR_25Hz => 3
  | LIS3DE_ODR_50Hz => 4
  | LIS3DE_ODR_100Hz => 5
  | LIS3DE_ODR_200Hz => 6
  | LIS3DE_ODR_400Hz => 7
  | LIS3DE_ODR_1kHz6 => 8
  | LIS3DE_ODR_5kHz376_LP_1kHz344_NM => 9

/-- `lis3de_hpcf_t`: high-pass cutoff codes, field `hpcf` of CTRL_REG2. -/
inductive lis3de_hpcf_t where
  | LIS3DE_AGGRESSIVE
  | LIS3DE_STRONG
  | LIS3DE_MEDIUM
  | LIS3DE_LIGHT
deriving DecidableEq, Repr, Fintype

open lis3de_hpcf_t

/-- Numeric code of a `lis3de_hpcf_t` value. -/
def hpcfCode : lis3de_hpcf_t → Nat
  | LIS3DE_AGGRESSIVE => 0
  | LIS3DE_STRONG => 1
  | LIS3DE_MEDIUM => 2
  | LIS3DE_LIGHT => 3

/-- `lis3de_hpm_t`: high-pass mode codes, field `hpm` of CTRL_REG2. -/
inductive lis3de_hpm_t where
  | LIS3DE_NORMAL_WITH_RST
  | LIS3DE_REFERENCE_MODE
  | LIS3DE_NORMAL
  | LIS3DE_AUTORST_ON_INT
deriving DecidableEq, Repr, Fintype

open lis3de_hpm_t

/-- Numeric code of a `lis3de_hpm_t` value. -/
def hpmCode : lis3de_hpm_t → Nat
  | LIS3DE_NORMAL_WITH_RST => 0
  | LIS3DE_REFERENCE_MODE => 1
  | LIS3DE_NORMAL => 2
  | LIS3DE_AUTORST_ON_INT => 3

/-- `lis3de_fs_t`: full-scale codes, field `fs` of CTRL_REG4. -/
inductive lis3de_fs_t where
  | LIS3DE_2g
  | LIS3DE_4g
  | LIS3DE_8g
  | LIS3DE_16g
deriving DecidableEq, Repr, Fintype

open lis3de_fs_t

/-- Numeric code of a `lis3de_fs_t` value. -/
def fsCode : lis3de_fs_t → Nat
  | LIS3DE_2g => 0
  | LIS3DE_4g => 1
  | LIS3DE_8g => 2
  | LIS3DE_16g => 3

/-! Driver accessor functions, translated from `lis3de_reg.c`. -/

/-- `lis3de_block_data_update_set`: RMW of the `bdu` bit (bit 7) of
CTRL_REG4; on read failure the write is skipped and the read's status is
returned. -/
def lis3de_block_data_update_set {σ : Type} (T : Transport σ) (s : σ)
    (val : Nat) : Int × σ :=
  let r := lis3de_read_reg T s LIS3DE_CTRL_REG4 1
  let ret := r.1.1
  let ctrl_reg4 := byte0 r.1.2
  if ret = 0 then
    lis3de_write_reg T r.2 LIS3DE_CTRL_REG4 [setBits ctrl_reg4 7 1 val]
  else
    (ret, r.2)

/-- `lis3de_block_data_update_get`: read CTRL_REG4 and extract `bdu`. -/
def lis3de_block_data_update_get {σ : Type} (T : Transport σ) (s : σ) :
    (Int × Nat) × σ :=
  let r := lis3de_read_reg T s LIS3DE_CTRL_REG4 1
  ((r.1.1, getBits (byte0 r.1.2) 7 1), r.2)

/-- `lis3de_aux_adc_set`: read TEMP_CFG_REG; if that read succeeded and
the requested mode is not `LIS3DE_AUX_DISABLE`, first force-enable the
block-data-update bit; then, if the status is still 0, patch the
`temp_en` (bit 6) and `adc_pd` (bit 7) fields of the byte read and write
it back to TEMP_CFG_REG. -/
def lis3de_aux_adc_set {σ : Type} (T : Transport σ) (s : σ)
    (val : lis3de_temp_en_t) : Int × σ :=
  let r := lis3de_read_reg T s LIS3DE_TEMP_CFG_REG 1
  let ret := r.1.1
  let temp_cfg_reg := byte0 r.1.2
  let br :=
    if ret = 0 then
      if val ≠ LIS3DE_AUX_DISABLE then
        lis3de_block_data_update_set T r.2 PROPERTY_ENABLE
      else
        (ret, r.2)
    else
      (ret, r.2)
  if br.1 = 0 then
    let b1 := setBits temp_cfg_reg 6 1 ((tempEnCode val &&& 0x02) >>> 1)
    let b2 := setBits b1 7 1 (tempEnCode val &&& 0x01)
    lis3de_write_reg T br.2 LIS3DE_TEMP_CFG_REG [b2]
  else
    (br.1, br.2)

/-- `lis3de_aux_adc_get`: read TEMP_CFG_REG and decode `temp_en`/`adc_pd`.
The C body is a dangling `if` (assigning `LIS3DE_AUX_ON_TEMPERATURE`,
with no `else`) followed by an `if`/`else` that assigns `*val` in both
branches; the sequence of shadowing `let`s below mirrors those successive
assignments to `*val`, whose prior content is `valPrior`. -/
def lis3de_aux_adc_get {σ : Type} (T : Transport σ) (s : σ)
    (valPrior : lis3de_temp_en_t) : (Int × lis3de_temp_en_t) × σ :=
  let r := lis3de_read_reg T s LIS3DE_TEMP_CFG_REG 1
  let temp_cfg_reg := byte0 r.1.2
  let v := valPrior
  let v :=
    if (getBits temp_cfg_reg 6 1 &&& getBits temp_cfg_reg 7 1)
        = PROPERTY_ENABLE then
      LIS3DE_AUX_ON_TEMPERATURE
    else v
  let v :=
    if getBits temp_cfg_reg 6 1 = PROPERTY_DISABLE ∧
        getBits temp_cfg_reg 7 1 = PROPERTY_ENABLE then
      LIS3DE_AUX_ON_PADS
    else
      LIS3DE_AUX_DISABLE
  ((r.1.1, v), r.2)

/-- `lis3de_data_rate_set`: RMW of the `odr` field (bits 4..7) of
CTRL_REG1. -/
def lis3de_data_rate_set {σ : Type} (T : Transport σ) (s : σ)
    (val : lis3de_odr_t) : Int × σ :=
  let r := lis3de_read_reg T s LIS3DE_CTRL_REG1 1
  let ret := r.1.1
  let ctrl_reg1 := byte0 r.1.2
  if ret = 0 then
    lis3de_write_reg T r.2 LIS3DE_CTRL_REG1
      [setBits ctrl_reg1 4 4 (odrCode val)]
  else
    (ret, r.2)

/-- Decode of the `odr` wire code, mirroring the `switch` in
`lis3de_data_rate_get` (default: `LIS3DE_POWER_DOWN`). -/
def odrDecode : Nat → lis3de_odr_t
  | 0 => LIS3DE_POWER_DOWN
  | 1 => LIS3DE_ODR_1Hz
  | 2 => LIS3DE_ODR_10Hz
  | 3 => LIS3DE_ODR_25Hz
  | 4 => LIS3DE_ODR_50Hz
  | 5 => LIS3DE_ODR_100Hz
  | 6 => LIS3DE_ODR_200Hz
  | 7 => LIS3DE_ODR_400Hz
  | 8 => LIS3DE_ODR_1kHz6
  | 9 => LIS3DE_ODR_5kHz376_LP_1kHz344_NM
  | _ => LIS3DE_POWER_DOWN

/-- `lis3de_data_rate_get`: read CTRL_REG1 and decode the `odr` field. -/
def lis3de_data_rate_get {σ : Type} (T : Transport σ) (s : σ) :
    (Int × lis3de_odr_t) × σ :=
  let r := lis3de_read_reg T s LIS3DE_CTRL_REG1 1
  ((r.1.1, odrDecode (getBits (byte0 r.1.2) 4 4)), r.2)

/-- `lis3de_high_pass_bandwidth_set`: RMW of the `hpcf` field
(bits 4..5) of CTRL_REG2. -/
def lis3de_high_pass_bandwidth_set {σ : Type} (T : Transport σ) (s : σ)
    (val : lis3de_hpcf_t) : Int × σ :=
  let r := lis3de_read_reg T s LIS3DE_CTRL_REG2 1
  let ret := r.1.1
  let ctrl_reg2 := byte0 r.1.2
  if ret = 0 then
    lis3de_write_reg T r.2 LIS3DE_CTRL_REG2
      [setBits ctrl_reg2 4 2 (hpcfCode val)]
  else
    (ret, r.2)

/-- Decode of the `hpcf` wire code, mirroring the `switch` in
`lis3de_high_pass_bandwidth_get` (default: `LIS3DE_LIGHT`). -/
def hpcfDecode : Nat → lis3de_hpcf_t
  | 0 => LIS3DE_AGGRESSIVE
  | 1 => LIS3DE_STRONG
  | 2 => LIS3DE_MEDIUM
  | 3 => LIS3DE_LIGHT
  | _ => LIS3DE_LIGHT

/-- `lis3de_high_pass_bandwidth_get`: read CTRL_REG2 and decode `hpcf`. -/
def lis3de_high_pass_bandwidth_get {σ : Type} (T : Transport σ) (s : σ) :
    (Int × lis3de_hpcf_t) × σ :=
  let r := lis3de_read_reg T s LIS3DE_CTRL_REG2 1
  ((r.1.1, hpcfDecode (getBits (byte0 r.1.2) 4 2)), r.2)

/-- Decode of the `hpm` wire code, mirroring the `switch` in
`lis3de_high_pass_mode_get` (default: `LIS3DE_NORMAL_WITH_RST`). -/
def hpmDecode : Nat → lis3de_hpm_t
  | 0 => LIS3DE_NORMAL_WITH_RST
  | 1 => LIS3DE_REFERENCE_MODE
  | 2 => LIS3DE_NORMAL
  | 3 => LIS3DE_AUTORST_ON_INT
  | _ => LIS3DE_NORMAL_WITH_RST

/-- `lis3de_high_pass_mode_get`: read CTRL_REG2 and decode `hpm`
(bits 6..7). -/
def lis3de_high_pass_mode_get {σ : Type} (T : Transport σ) (s : σ) :
    (Int × lis3de_hpm_t) × σ :=
  let r := lis3de_read_reg T s LIS3DE_CTRL_REG2 1
  ((r.1.1, hpmDecode (getBits (byte0 r.1.2) 6 2)), r.2)

/-- `lis3de_full_scale_set`: RMW of the `fs` field (bits 4..5) of
CTRL_REG4. -/
def lis3de_full_scale_set {σ : Type} (T : Transport σ) (s : σ)
    (val : lis3de_fs_t) : Int × σ :=
  let r := lis3de_read_reg T s LIS3DE_CTRL_REG4 1
  let ret := r.1.1
  let ctrl_reg4 := byte0 r.1.2
  if ret = 0 then
    lis3de_write_reg T r.2 LIS3DE_CTRL_REG4
      [setBits ctrl_reg4 4 2 (fsCode val)]
  else
    (ret, r.2)

/-- Decode of the `fs` wire code, mirroring the `switch` in
`lis3de_full_scale_get` (default: `LIS3DE_2g`). -/
def fsDecode : Nat → lis3de_fs_t
  | 0 => LIS3DE_2g
  | 1 => LIS3DE_4g
  | 2 => LIS3DE_8g
  | 3 => LIS3DE_16g
  | _ => LIS3DE_2g

/-- `lis3de_full_scale_get`: read CTRL_REG4 and decode the `fs` field. -/
def lis3de_full_scale_get {σ : Type} (T : Transport σ) (s : σ) :
    (Int × lis3de_fs_t) × σ :=
  let r := lis3de_read_reg T s LIS3DE_CTRL_REG4 1
  ((r.1.1, fsDecode (getBits (byte0 r.1.2) 4 2)), r.2)

/-- `lis3de_fifo_watermark_set`: RMW of the `fth` field (bits 0..4) of
FIFO_CTRL_REG. -/
def lis3de_fifo_watermark_set {σ : Type} (T : Transport σ) (s : σ)
    (val : Nat) : Int × σ :=
  let r := lis3de_read_reg T s LIS3DE_FIFO_CTRL_REG 1
  let ret := r.1.1
  let fifo_ctrl_reg := byte0 r.1.2
  if ret = 0 then
    lis3de_write_reg T r.2 LIS3DE_FIFO_CTRL_REG
      [setBits fifo_ctrl_reg 0 5 val]
  else
    (ret, r.2)

/-- `lis3de_fifo_watermark_get`: read FIFO_CTRL_REG and extract `fth`. -/
def lis3de_fifo_watermark_get {σ : Type} (T : Transport σ) (s : σ) :
    (Int × Nat) × σ :=
  let r := lis3de_read_reg T s LIS3DE_FIFO_CTRL_REG 1
  ((r.1.1, getBits (byte0 r.1.2) 0 5), r.2)

/-- `lis3de_filter_reference_set`: direct one-byte write to REFERENCE. -/
def lis3de_filter_reference_set {σ : Type} (T : Transport σ) (s : σ)
    (buff : Nat) : Int × σ :=
  lis3de_write_reg T s LIS3DE_REFERENCE [buff]

/-- `lis3de_adc_raw_get`: one six-byte read starting at OUT_ADC1_L,
reassembled into three little-endian signed 16-bit values exactly as the
C arithmetic does (`val[i] = buff[2i+1]; val[i] = val[i]*256 +
buff[2i]`, narrowed to `int16_t`). -/
def lis3de_adc_raw_get {σ : Type} (T : Transport σ) (s : σ) :
    (Int × List Int) × σ :=
  let r := lis3de_read_reg T s LIS3DE_OUT_ADC1_L 6
  let buf := r.1.2
  ((r.1.1,
    [toInt16 (byteAt buf 1 * 256 + byteAt buf 0),
     toInt16 (byteAt buf 3 * 256 + byteAt buf 2),
     toInt16 (byteAt buf 5 * 256 + byteAt buf 4)]), r.2)

/-- `lis3de_acceleration_raw_get`: three sequential one-byte reads of
OUT_X, OUT_Y, OUT_Z.  After the first read, `buff[0]` is assigned
unconditionally from the read buffer (`dummy`); each subsequent read and
its assignment run only if the previous status was 0.  `buff` is the
caller's three-entry `int16_t` output array (prior contents). -/
def lis3de_acceleration_raw_get {σ : Type} (T : Transport σ) (s : σ)
    (buff : List Int) : (Int × List Int) × σ :=
  let r1 := lis3de_read_reg T s LIS3DE_OUT_X 1
  let ret := r1.1.1
  let buff := buff.set 0 (toInt8 (byte0 r1.1.2))
  if ret = 0 then
    let r2 := lis3de_read_reg T r1.2 LIS3DE_OUT_Y 1
    let ret := r2.1.1
    let buff := buff.set 1 (toInt8 (byte0 r2.1.2))
    if ret = 0 then
      let r3 := lis3de_read_reg T r2.2 LIS3DE_OUT_Z 1
      let buff := buff.set 2 (toInt8 (byte0 r3.1.2))
      ((r3.1.1, buff), r3.2)
    else
      ((ret, buff), r2.2)
  else
    ((ret, buff), r1.2)

/-! Unit-conversion helpers.  The C functions compute over `float_t`;
they are modelled over `ℚ` with the source's decimal constants. -/

/-- `lis3de_from_fs2_to_mg`. -/
def lis3de_from_fs2_to_mg (lsb : Int) : ℚ := (lsb : ℚ) * 15.6

/-- `lis3de_from_fs4_to_mg`. -/
def lis3de_from_fs4_to_mg (lsb : Int) : ℚ := (lsb : ℚ) * 31.2

/-- `lis3de_from_fs8_to_mg`. -/
def lis3de_from_fs8_to_mg (lsb : Int) : ℚ := (lsb : ℚ) * 62.5

/-- `lis3de_from_fs16_to_mg`. -/
def lis3de_from_fs16_to_mg (lsb : Int) : ℚ := (lsb : ℚ) * 187.5

/-- `lis3de_from_lsb_to_celsius`. -/
def lis3de_from_lsb_to_celsius (lsb : Int) : ℚ := (lsb : ℚ) * 1 + 25

/-! Concrete transports used to exercise the accessors. -/

/-- A register store assigning byte `n` to every address. -/
def mkStore (n : Nat) : Nat → Nat := fun _ => n % 256

/-- Mock transport backed by a register store: reads return consecutive
stored bytes with status 0, writes update the store with status 0. -/
def mockT : Transport (Nat → Nat) where
  readf := fun s reg len => ((0, (List.range len).map fun i => s (reg + i)), s)
  writef := fun s reg data =>
    (0, fun a =>
      if reg ≤ a ∧ a < reg + data.length then data.getD (a - reg) 0 % 256
      else s a)

/-- Stateless transport answering reads from `rr` and writes from `wr`,
keyed on the register address. -/
def tableT (rr : Nat → Int × List Nat) (wr : Nat → Int) : Transport Unit where
  readf := fun _ reg _ => (rr reg, ())
  writef := fun _ reg _ => (wr reg, ())

/-- Transport answering every read with status 0 and the single byte `b`,
and accepting every write with status 0. -/
def constT (b : Nat) : Transport Unit :=
  tableT (fun _ => (0, [b])) (fun _ => 0)

/-- Transport failing every read with status 7. -/
def failT : Transport Unit :=
  tableT (fun _ => (7, [0])) (fun _ => 0)

/-- Transport whose reads succeed with byte 0 and whose writes fail with
status 9 exactly on CTRL_REG4. -/
def bduFailT : Transport Unit :=
  tableT (fun _ => (0, [0]))
    (fun reg => if reg = LIS3DE_CTRL_REG4 then 9 else 0)

/-- Transport reading byte 5 from OUT_X, failing on OUT_Y with status 1
leaving byte 99 in the buffer, and byte 0 elsewhere. -/
def cexT : Transport Unit :=
  tableT
    (fun reg =>
      if reg = LIS3DE_OUT_X then (0, [5])
      else if reg = LIS3DE_OUT_Y then (1, [99])
      else (0, [0]))
    (fun _ => 0)

/-- Transport answering every read with the bytes 1..6. -/
def adcT : Transport Unit :=
  tableT (fun _ => (0, [1, 2, 3, 4, 5, 6])) (fun _ => 0)

/-! ## Claims -/

/-- C7: `lis3de_adc_raw_get` issues exactly one transport read, of six
consecutive bytes starting at OUT_ADC1_L, and reassembles them into three
little-endian signed 16-bit values (`out[i]` is `byte[2i+1]*256 +
byte[2i]` as an `int16_t`); on bytes 1..6 the outputs are 0x0201, 0x0403,
0x0605. -/
theorem lis3de_c7_adc_raw_little_endian {σ : Type} (T : Transport σ)
    (s : σ) :
    (lis3de_adc_raw_get (recording T) (s, [])).2.2
      = [Ev.rd LIS3DE_OUT_ADC1_L 6] ∧
    (lis3de_adc_raw_get T s).1
      = ((T.readf s LIS3DE_OUT_ADC1_L 6).1.1,
         [toInt16 (byteAt (T.readf s LIS3DE_OUT_ADC1_L 6).1.2 1 * 256
            + byteAt (T.readf s LIS3DE_OUT_ADC1_L 6).1.2 0),
          toInt16 (byteAt (T.readf s LIS3DE_OUT_ADC1_L 6).1.2 3 * 256
            + byteAt (T.readf s LIS3DE_OUT_ADC1_L 6).1.2 2),
          toInt16 (byteAt (T.readf s LIS3DE_OUT_ADC1_L 6).1.2 5 * 256
            + byteAt (T.readf s LIS3DE_OUT_ADC1_L 6).1.2 4)]) ∧
    (lis3de_adc_raw_get adcT ()).1 = (0, [0x0201, 0x0403, 0x0605]) := by
  refine ⟨rfl, rfl, by decide⟩

/-- C8: the unit-conversion helpers are pure linear maps with the
datasheet constants: `x * 15.6`, `x * 31.2`, `x * 62.5`, `x * 187.5`,
and `x + 25` for temperature; at `lsb = 1` each scale function returns
its constant and at `lsb = 0` the temperature helper returns 25. -/
theorem lis3de_c8_unit_conversions (lsb : Int) :
    lis3de_from_fs2_to_mg lsb = (lsb : ℚ) * 15.6 ∧
    lis3de_from_fs4_to_mg lsb = (lsb : ℚ) * 31.2 ∧
    lis3de_from_fs8_to_mg lsb = (lsb : ℚ) * 62.5 ∧
    lis3de_from_fs16_to_mg lsb = (lsb : ℚ) * 187.5 ∧
    lis3de_from_lsb_to_celsius lsb = (lsb : ℚ) + 25 ∧
    lis3de_from_fs2_to_mg 1 = 15.6 ∧
    lis3de_from_fs4_to_mg 1 = 31.2 ∧
    lis3de_from_fs8_to_mg 1 = 62.5 ∧
    lis3de_from_fs16_to_mg 1 = 187.5 ∧
    lis3de_from_lsb_to_celsius 0 = 25 := by
  refine ⟨rfl, rfl, rfl, rfl, ?_, ?_, ?_, ?_, ?_, ?_⟩ <;>
    norm_num [lis3de_from_fs2_to_mg, lis3de_from_fs4_to_mg,
      lis3de_from_fs8_to_mg, lis3de_from_fs16_to_mg,
      lis3de_from_lsb_to_celsius]

/-- C10: whatever byte the transport returns for TEMP_CFG_REG (and
whatever the out-parameter held before the call),
`lis3de_aux_adc_get` never outputs `LIS3DE_AUX_ON_TEMPERATURE`: the
trailing `if`/`else` overwrites the dangling first `if`'s assignment. -/
theorem lis3de_c10_aux_adc_get_never_temperature {σ : Type}
    (T : Transport σ) (s : σ) (vp : lis3de_temp_en_t) :
    (lis3de_aux_adc_get T s vp).1.2 ≠ LIS3DE_AUX_ON_TEMPERATURE := by
  simp only [lis3de_aux_adc_get]
  split <;> simp

/-- C2 (code bug): against a storing mock transport, writing
`LIS3DE_AUX_ON_TEMPERATURE` with `lis3de_aux_adc_set` succeeds, but the
following `lis3de_aux_adc_get` reads back `LIS3DE_AUX_DISABLE`, so the
set/get round-trip fails for that value; it does hold for
`LIS3DE_AUX_ON_PADS` and `LIS3DE_AUX_DISABLE`. -/
theorem lis3de_c2_aux_adc_roundtrip_bug :
    (lis3de_aux_adc_set mockT (mkStore 0) LIS3DE_AUX_ON_TEMPERATURE).1
      = 0 ∧
    (lis3de_aux_adc_get mockT
        (lis3de_aux_adc_set mockT (mkStore 0)
          LIS3DE_AUX_ON_TEMPERATURE).2 LIS3DE_AUX_DISABLE).1
      = (0, LIS3DE_AUX_DISABLE) ∧
    LIS3DE_AUX_DISABLE ≠ LIS3DE_AUX_ON_TEMPERATURE ∧
    (lis3de_aux_adc_get mockT
        (lis3de_aux_adc_set mockT (mkStore 0) LIS3DE_AUX_ON_PADS).2
        LIS3DE_AUX_DISABLE).1
      = (0, LIS3DE_AUX_ON_PADS) ∧
    (lis3de_aux_adc_get mockT
        (lis3de_aux_adc_set mockT (mkStore 0) LIS3DE_AUX_DISABLE).2
        LIS3DE_AUX_ON_PADS).1
      = (0, LIS3DE_AUX_DISABLE) := by
  refine ⟨?_, ?_, ?_, ?_, ?_⟩ <;> decide


set_option maxRecDepth 4000 in
/-- C4: the enumerated getters return the transport read's status
unmodified and decode the extracted field totally: every wire code in
the known set decodes to the symbolic value with that code, and every
other code decodes to the fixed default — code 0 (`LIS3DE_POWER_DOWN`)
for the output data rate, code 3 (`LIS3DE_LIGHT`) for the high-pass
bandwidth, code 0 (`LIS3DE_2g`) for the full scale, and code 0
(`LIS3DE_NORMAL_WITH_RST`) for the high-pass mode. -/
theorem lis3de_c4_enum_getters_defensive_default {σ : Type}
    (T : Transport σ) (s : σ) :
    (lis3de_data_rate_get T s).1.1
      = (T.readf s LIS3DE_CTRL_REG1 1).1.1 ∧
    (lis3de_data_rate_get T s).1.2
      = odrDecode (getBits (byte0 (T.readf s LIS3DE_CTRL_REG1 1).1.2) 4 4) ∧
    (lis3de_high_pass_bandwidth_get T s).1.1
      = (T.readf s LIS3DE_CTRL_REG2 1).1.1 ∧
    (lis3de_high_pass_bandwidth_get T s).1.2
      = hpcfDecode (getBits (byte0 (T.readf s LIS3DE_CTRL_REG2 1).1.2) 4 2) ∧
    (lis3de_high_pass_mode_get T s).1.1
      = (T.readf s LIS3DE_CTRL_REG2 1).1.1 ∧
    (lis3de_high_pass_mode_get T s).1.2
      = hpmDecode (getBits (byte0 (T.readf s LIS3DE_CTRL_REG2 1).1.2) 6 2) ∧
    (lis3de_full_scale_get T s).1.1
      = (T.readf s LIS3DE_CTRL_REG4 1).1.1 ∧
    (lis3de_full_scale_get T s).1.2
      = fsDecode (getBits (byte0 (T.readf s LIS3DE_CTRL_REG4 1).1.2) 4 2) ∧
    (∀ c : Fin 256,
      odrCode (odrDecode c.val) = if c.val ≤ 9 then c.val else 0) ∧
    (∀ c : Fin 256,
      hpcfCode (hpcfDecode c.val) = if c.val ≤ 3 then c.val else 3) ∧
    (∀ c : Fin 256,
      hpmCode (hpmDecode c.val) = if c.val ≤ 3 then c.val else 0) ∧
    (∀ c : Fin 256,
      fsCode (fsDecode c.val) = if c.val ≤ 3 then c.val else 0) := by
  refine ⟨rfl, rfl, rfl, rfl, rfl, rfl, rfl, rfl, ?_, ?_, ?_, ?_⟩ <;>
    decide

/-! Helper lemmas for the sibling-bit isolation of the RMW setters:
patching one field changes no bit outside the field's mask, and against
`constT b` each setter's bus activity is exactly one read then one
write of the patched byte. -/

set_option maxRecDepth 4000 in
lemma setBits_odr_siblings : ∀ b : Fin 256, ∀ v : lis3de_odr_t,
    setBits b.val 4 4 (odrCode v) &&& 0x0F = b.val &&& 0x0F := by decide

set_option maxRecDepth 4000 in
lemma setBits_fs_siblings : ∀ b : Fin 256, ∀ v : lis3de_fs_t,
    setBits b.val 4 2 (fsCode v) &&& 0xCF = b.val &&& 0xCF := by decide

set_option maxRecDepth 4000 in
lemma setBits_hpcf_siblings : ∀ b : Fin 256, ∀ v : lis3de_hpcf_t,
    setBits b.val 4 2 (hpcfCode v) &&& 0xCF = b.val &&& 0xCF := by decide

set_option maxRecDepth 4000 in
lemma setBits_bdu_siblings : ∀ b : Fin 256, ∀ v : Fin 2,
    setBits b.val 7 1 v.val &&& 0x7F = b.val &&& 0x7F := by decide

set_option maxRecDepth 4000 in
lemma setBits_fth_siblings : ∀ b : Fin 256, ∀ v : Fin 32,
    setBits b.val 0 5 v.val &&& 0xE0 = b.val &&& 0xE0 := by decide

lemma data_rate_set_constT_trace (b : Nat) (v : lis3de_odr_t) :
    (lis3de_data_rate_set (recording (constT b)) (((), [])) v).2.2
      = [Ev.rd LIS3DE_CTRL_REG1 1,
         Ev.wr LIS3DE_CTRL_REG1 [setBits (b % 256) 4 4 (odrCode v)]] := rfl

lemma full_scale_set_constT_trace (b : Nat) (v : lis3de_fs_t) :
    (lis3de_full_scale_set (recording (constT b)) (((), [])) v).2.2
      = [Ev.rd LIS3DE_CTRL_REG4 1,
         Ev.wr LIS3DE_CTRL_REG4 [setBits (b % 256) 4 2 (fsCode v)]] := rfl

lemma high_pass_bandwidth_set_constT_trace (b : Nat) (v : lis3de_hpcf_t) :
    (lis3de_high_pass_bandwidth_set (recording (constT b)) (((), [])) v).2.2
      = [Ev.rd LIS3DE_CTRL_REG2 1,
         Ev.wr LIS3DE_CTRL_REG2 [setBits (b % 256) 4 2 (hpcfCode v)]] := rfl

lemma block_data_update_set_constT_trace (b : Nat) (v : Nat) :
    (lis3de_block_data_update_set (recording (constT b)) (((), [])) v).2.2
      = [Ev.rd LIS3DE_CTRL_REG4 1,
         Ev.wr LIS3DE_CTRL_REG4 [setBits (b % 256) 7 1 v]] := rfl

lemma fifo_watermark_set_constT_trace (b : Nat) (v : Nat) :
    (lis3de_fifo_watermark_set (recording (constT b)) (((), [])) v).2.2
      = [Ev.rd LIS3DE_FIFO_CTRL_REG 1,
         Ev.wr LIS3DE_FIFO_CTRL_REG [setBits (b % 256) 0 5 v]] := rfl

/-- C3: for every starting register byte `b` and every legal field
value, each read-modify-write setter issues exactly one read of its
register followed by one write of `setBits b lo w code`, and the byte
written back agrees with `b` on every bit outside the targeted field
(mask complements: 0x0F for `odr`, 0xCF for `fs` and `hpcf`, 0x7F for
`bdu`, 0xE0 for `fth`). -/
theorem lis3de_c3_rmw_sibling_bits_preserved (b : Nat) (hb : b < 256) :
    (∀ v : lis3de_odr_t,
      (lis3de_data_rate_set (recording (constT b)) (((), [])) v).2.2
        = [Ev.rd LIS3DE_CTRL_REG1 1,
           Ev.wr LIS3DE_CTRL_REG1 [setBits b 4 4 (odrCode v)]] ∧
      setBits b 4 4 (odrCode v) &&& 0x0F = b &&& 0x0F) ∧
    (∀ v : lis3de_fs_t,
      (lis3de_full_scale_set (recording (constT b)) (((), [])) v).2.2
        = [Ev.rd LIS3DE_CTRL_REG4 1,
           Ev.wr LIS3DE_CTRL_REG4 [setBits b 4 2 (fsCode v)]] ∧
      setBits b 4 2 (fsCode v) &&& 0xCF = b &&& 0xCF) ∧
    (∀ v : lis3de_hpcf_t,
      (lis3de_high_pass_bandwidth_set (recording (constT b))
          (((), [])) v).2.2
        = [Ev.rd LIS3DE_CTRL_REG2 1,
           Ev.wr LIS3DE_CTRL_REG2 [setBits b 4 2 (hpcfCode v)]] ∧
      setBits b 4 2 (hpcfCode v) &&& 0xCF = b &&& 0xCF) ∧
    (∀ v : Fin 2,
      (lis3de_block_data_update_set (recording (constT b))
          (((), [])) v.val).2.2
        = [Ev.rd LIS3DE_CTRL_REG4 1,
           Ev.wr LIS3DE_CTRL_REG4 [setBits b 7 1 v.val]] ∧
      setBits b 7 1 v.val &&& 0x7F = b &&& 0x7F) ∧
    (∀ v : Fin 32,
      (lis3de_fifo_watermark_set (recording (constT b))
          (((), [])) v.val).2.2
        = [Ev.rd LIS3DE_FIFO_CTRL_REG 1,
           Ev.wr LIS3DE_FIFO_CTRL_REG [setBits b 0 5 v.val]] ∧
      setBits b 0 5 v.val &&& 0xE0 = b &&& 0xE0) := by
  have hm : b % 256 = b := Nat.mod_eq_of_lt hb
  refine ⟨fun v => ⟨?_, setBits_odr_siblings ⟨b, hb⟩ v⟩,
    fun v => ⟨?_, setBits_fs_siblings ⟨b, hb⟩ v⟩,
    fun v => ⟨?_, setBits_hpcf_siblings ⟨b, hb⟩ v⟩,
    fun v => ⟨?_, setBits_bdu_siblings ⟨b, hb⟩ v⟩,
    fun v => ⟨?_, setBits_fth_siblings ⟨b, hb⟩ v⟩⟩
  · rw [data_rate_set_constT_trace, hm]
  · rw [full_scale_set_constT_trace, hm]
  · rw [high_pass_bandwidth_set_constT_trace, hm]
  · rw [block_data_update_set_constT_trace, hm]
  · rw [fifo_watermark_set_constT_trace, hm]

/-- Witness for C3 at byte 0xAB and full-scale value `LIS3DE_4g`. -/
theorem lis3de_c3_rmw_sibling_bits_preserved_witness :
    (lis3de_full_scale_set (recording (constT 0xAB)) (((), []))
        LIS3DE_4g).2.2
      = [Ev.rd LIS3DE_CTRL_REG4 1,
         Ev.wr LIS3DE_CTRL_REG4 [setBits 0xAB 4 2 (fsCode LIS3DE_4g)]] ∧
    setBits 0xAB 4 2 (fsCode LIS3DE_4g) &&& 0xCF = 0xAB &&& 0xCF :=
  (lis3de_c3_rmw_sibling_bits_preserved 0xAB (by decide)).2.1 LIS3DE_4g

/-- C1: for each read-modify-write setter, when the initial transport
read of the enclosing register returns a non-zero status, the setter
performs no further transport call (the recorded bus activity is the
single read) and returns that status unmodified. -/
theorem lis3de_c1_rmw_read_fail_shortcircuit {σ : Type} (T : Transport σ)
    (s : σ) (v1 : lis3de_odr_t) (v2 : lis3de_fs_t) (v3 : Nat)
    (v4 : lis3de_hpcf_t) (v5 : Nat) (v6 : lis3de_temp_en_t)
    (st1 : Int) (b1 : List Nat) (s1 : σ)
    (h1 : T.readf s LIS3DE_CTRL_REG1 1 = ((st1, b1), s1)) (e1 : st1 ≠ 0)
    (st2 : Int) (b2 : List Nat) (s2 : σ)
    (h2 : T.readf s LIS3DE_CTRL_REG4 1 = ((st2, b2), s2)) (e2 : st2 ≠ 0)
    (st3 : Int) (b3 : List Nat) (s3 : σ)
    (h3 : T.readf s LIS3DE_FIFO_CTRL_REG 1 = ((st3, b3), s3))
    (e3 : st3 ≠ 0)
    (st4 : Int) (b4 : List Nat) (s4 : σ)
    (h4 : T.readf s LIS3DE_CTRL_REG2 1 = ((st4, b4), s4)) (e4 : st4 ≠ 0)
    (st5 : Int) (b5 : List Nat) (s5 : σ)
    (h5 : T.readf s LIS3DE_TEMP_CFG_REG 1 = ((st5, b5), s5))
    (e5 : st5 ≠ 0) :
    lis3de_data_rate_set (recording T) (s, []) v1
      = (st1, (s1, [Ev.rd LIS3DE_CTRL_REG1 1])) ∧
    lis3de_full_scale_set (recording T) (s, []) v2
      = (st2, (s2, [Ev.rd LIS3DE_CTRL_REG4 1])) ∧
    lis3de_block_data_update_set (recording T) (s, []) v3
      = (st2, (s2, [Ev.rd LIS3DE_CTRL_REG4 1])) ∧
    lis3de_fifo_watermark_set (recording T) (s, []) v5
      = (st3, (s3, [Ev.rd LIS3DE_FIFO_CTRL_REG 1])) ∧
    lis3de_high_pass_bandwidth_set (recording T) (s, []) v4
      = (st4, (s4, [Ev.rd LIS3DE_CTRL_REG2 1])) ∧
    lis3de_aux_adc_set (recording T) (s, []) v6
      = (st5, (s5, [Ev.rd LIS3DE_TEMP_CFG_REG 1])) := by
  refine ⟨?_, ?_, ?_, ?_, ?_, ?_⟩
  · simp [lis3de_data_rate_set, lis3de_read_reg, lis3de_write_reg,
      recording, h1, e1]
  · simp [lis3de_full_scale_set, lis3de_read_reg, lis3de_write_reg,
      recording, h2, e2]
  · simp [lis3de_block_data_update_set, lis3de_read_reg,
      lis3de_write_reg, recording, h2, e2]
  · simp [lis3de_fifo_watermark_set, lis3de_read_reg, lis3de_write_reg,
      recording, h3, e3]
  · simp [lis3de_high_pass_bandwidth_set, lis3de_read_reg,
      lis3de_write_reg, recording, h4, e4]
  · simp [lis3de_aux_adc_set, lis3de_block_data_update_set,
      lis3de_read_reg, lis3de_write_reg, recording, h5, e5]

/-- Witness for C1: against `failT`, whose every read fails with
status 7, each setter returns 7 and issues only its initial read. -/
theorem lis3de_c1_rmw_read_fail_shortcircuit_witness :
    lis3de_data_rate_set (recording failT) (((), [])) LIS3DE_ODR_1Hz
      = (7, ((), [Ev.rd LIS3DE_CTRL_REG1 1])) ∧
    lis3de_full_scale_set (recording failT) (((), [])) LIS3DE_2g
      = (7, ((), [Ev.rd LIS3DE_CTRL_REG4 1])) ∧
    lis3de_block_data_update_set (recording failT) (((), [])) 1
      = (7, ((), [Ev.rd LIS3DE_CTRL_REG4 1])) ∧
    lis3de_fifo_watermark_set (recording failT) (((), [])) 5
      = (7, ((), [Ev.rd LIS3DE_FIFO_CTRL_REG 1])) ∧
    lis3de_high_pass_bandwidth_set (recording failT) (((), []))
        LIS3DE_LIGHT
      = (7, ((), [Ev.rd LIS3DE_CTRL_REG2 1])) ∧
    lis3de_aux_adc_set (recording failT) (((), [])) LIS3DE_AUX_ON_PADS
      = (7, ((), [Ev.rd LIS3DE_TEMP_CFG_REG 1])) :=
  lis3de_c1_rmw_read_fail_shortcircuit failT () LIS3DE_ODR_1Hz LIS3DE_2g
    1 LIS3DE_LIGHT 5 LIS3DE_AUX_ON_PADS
    7 [0] () rfl (by decide) 7 [0] () rfl (by decide)
    7 [0] () rfl (by decide) 7 [0] () rfl (by decide)
    7 [0] () rfl (by decide)

/-- C5: when `lis3de_aux_adc_set` is called with a non-disable mode and
its initial TEMP_CFG_REG read succeeds, the block-data-update write to
CTRL_REG4 is issued strictly before any TEMP_CFG_REG write: if the
CTRL_REG4 write fails (status `st3 ≠ 0`) the call stops there, returning
`st3`, with no TEMP_CFG_REG write recorded; if it succeeds the recorded
bus activity is read TEMP_CFG_REG, read CTRL_REG4, write CTRL_REG4,
write TEMP_CFG_REG, in that order; and if the inner CTRL_REG4 read
fails, neither write happens. -/
theorem lis3de_c5_aux_adc_bdu_write_ordering {σ : Type} (T : Transport σ)
    (s : σ) (v : lis3de_temp_en_t) (hv : v ≠ LIS3DE_AUX_DISABLE)
    (b1 : List Nat) (s1 : σ)
    (h1 : T.readf s LIS3DE_TEMP_CFG_REG 1 = ((0, b1), s1))
    (st2 : Int) (b2 : List Nat) (s2 : σ)
    (h2 : T.readf s1 LIS3DE_CTRL_REG4 1 = ((st2, b2), s2))
    (st3 : Int) (s3 : σ)
    (h3 : T.writef s2 LIS3DE_CTRL_REG4
        [setBits (byte0 b2) 7 1 PROPERTY_ENABLE] = (st3, s3)) :
    (st2 = 0 → st3 ≠ 0 →
      lis3de_aux_adc_set (recording T) (s, []) v
        = (st3, (s3,
            [Ev.rd LIS3DE_TEMP_CFG_REG 1, Ev.rd LIS3DE_CTRL_REG4 1,
             Ev.wr LIS3DE_CTRL_REG4
               [setBits (byte0 b2) 7 1 PROPERTY_ENABLE]]))) ∧
    (st2 = 0 → st3 = 0 →
      (lis3de_aux_adc_set (recording T) (s, []) v).2.2
        = [Ev.rd LIS3DE_TEMP_CFG_REG 1, Ev.rd LIS3DE_CTRL_REG4 1,
           Ev.wr LIS3DE_CTRL_REG4 [setBits (byte0 b2) 7 1 PROPERTY_ENABLE],
           Ev.wr LIS3DE_TEMP_CFG_REG
             [setBits (setBits (byte0 b1) 6 1
                 ((tempEnCode v &&& 0x02) >>> 1)) 7 1
               (tempEnCode v &&& 0x01)]]) ∧
    (st2 ≠ 0 →
      lis3de_aux_adc_set (recording T) (s, []) v
        = (st2, (s2,
            [Ev.rd LIS3DE_TEMP_CFG_REG 1, Ev.rd LIS3DE_CTRL_REG4 1]))) := by
  refine ⟨?_, ?_, ?_⟩ <;> intro hst2 <;>
    first
    | (intro hst3
       simp [lis3de_aux_adc_set, lis3de_block_data_update_set,
         lis3de_read_reg, lis3de_write_reg, recording, h1, h2, h3, hv,
         hst2, hst3])
    | simp [lis3de_aux_adc_set, lis3de_block_data_update_set,
        lis3de_read_reg, lis3de_write_reg, recording, h1, h2, h3, hv,
        hst2]

/-- Witness for C5: against `bduFailT` (reads succeed with byte 0, the
CTRL_REG4 write fails with status 9) the call with
`LIS3DE_AUX_ON_PADS` returns 9 and never writes TEMP_CFG_REG. -/
theorem lis3de_c5_aux_adc_bdu_write_ordering_witness :
    ((0 : Int) = 0 → (9 : Int) ≠ 0 →
      lis3de_aux_adc_set (recording bduFailT) (((), []))
          LIS3DE_AUX_ON_PADS
        = (9, ((),
            [Ev.rd LIS3DE_TEMP_CFG_REG 1, Ev.rd LIS3DE_CTRL_REG4 1,
             Ev.wr LIS3DE_CTRL_REG4
               [setBits (byte0 [0]) 7 1 PROPERTY_ENABLE]]))) ∧
    ((0 : Int) = 0 → (9 : Int) = 0 →
      (lis3de_aux_adc_set (recording bduFailT) (((), []))
          LIS3DE_AUX_ON_PADS).2.2
        = [Ev.rd LIS3DE_TEMP_CFG_REG 1, Ev.rd LIS3DE_CTRL_REG4 1,
           Ev.wr LIS3DE_CTRL_REG4 [setBits (byte0 [0]) 7 1 PROPERTY_ENABLE],
           Ev.wr LIS3DE_TEMP_CFG_REG
             [setBits (setBits (byte0 [0]) 6 1
                 ((tempEnCode LIS3DE_AUX_ON_PADS &&& 0x02) >>> 1)) 7 1
               (tempEnCode LIS3DE_AUX_ON_PADS &&& 0x01)]]) ∧
    ((0 : Int) ≠ 0 →
      lis3de_aux_adc_set (recording bduFailT) (((), []))
          LIS3DE_AUX_ON_PADS
        = (0, ((),
            [Ev.rd LIS3DE_TEMP_CFG_REG 1, Ev.rd LIS3DE_CTRL_REG4 1]))) :=
  lis3de_c5_aux_adc_bdu_write_ordering bduFailT () LIS3DE_AUX_ON_PADS
    (by decide) [0] () rfl 0 [0] () rfl 9 () rfl

/-- C6 counterexample: against `cexT` (OUT_X read succeeds with byte 5,
OUT_Y read fails with status 1 leaving byte 99 in the buffer), with the
output buffer previously holding `[7, 7, 7]`,
`lis3de_acceleration_raw_get` returns status 1 but the second (failed)
axis entry has been overwritten to 99 instead of staying 7 — the
not-successfully-read entry is NOT left untouched. -/
theorem lis3de_c6_accel_partial_fill_counterexample :
    (lis3de_acceleration_raw_get cexT () [7, 7, 7]).1.1 = 1 ∧
    (lis3de_acceleration_raw_get cexT () [7, 7, 7]).1.2 = [5, 99, 7] ∧
    ¬ ((lis3de_acceleration_raw_get cexT () [7, 7, 7]).1.2.getD 1 0
        = 7) := by
  refine ⟨?_, ?_, ?_⟩ <;> decide

/-- C6 (amended): `lis3de_acceleration_raw_get` reads OUT_X, OUT_Y,
OUT_Z in that order, attempts each subsequent read only if the previous
one succeeded, and returns the first non-zero status immediately; every
successfully read axis is stored (sign-extended from the byte read),
every axis strictly after the failing one keeps its prior value, but
the entry of the axis whose read failed is itself overwritten with the
sign-extension of whatever the failed transport call left in its
one-byte buffer. -/
theorem lis3de_c6_accel_partial_fill {σ : Type} (T : Transport σ)
    (s : σ) (p0 p1 p2 : Int)
    (st1 : Int) (b1 : List Nat) (s1 : σ)
    (h1 : T.readf s LIS3DE_OUT_X 1 = ((st1, b1), s1))
    (st2 : Int) (b2 : List Nat) (s2 : σ)
    (h2 : T.readf s1 LIS3DE_OUT_Y 1 = ((st2, b2), s2))
    (st3 : Int) (b3 : List Nat) (s3 : σ)
    (h3 : T.readf s2 LIS3DE_OUT_Z 1 = ((st3, b3), s3)) :
    (st1 ≠ 0 →
      lis3de_acceleration_raw_get (recording T) (s, []) [p0, p1, p2]
        = ((st1, [toInt8 (byte0 b1), p1, p2]),
           (s1, [Ev.rd LIS3DE_OUT_X 1]))) ∧
    (st1 = 0 → st2 ≠ 0 →
      lis3de_acceleration_raw_get (recording T) (s, []) [p0, p1, p2]
        = ((st2, [toInt8 (byte0 b1), toInt8 (byte0 b2), p2]),
           (s2, [Ev.rd LIS3DE_OUT_X 1, Ev.rd LIS3DE_OUT_Y 1]))) ∧
    (st1 = 0 → st2 = 0 →
      lis3de_acceleration_raw_get (recording T) (s, []) [p0, p1, p2]
        = ((st3, [toInt8 (byte0 b1), toInt8 (byte0 b2), toInt8 (byte0 b3)]),
           (s3, [Ev.rd LIS3DE_OUT_X 1, Ev.rd LIS3DE_OUT_Y 1,
                 Ev.rd LIS3DE_OUT_Z 1]))) := by
  refine ⟨?_, ?_, ?_⟩
  · intro e1
    simp [lis3de_acceleration_raw_get, lis3de_read_reg, recording,
      h1, e1, List.set]
  · intro e1 e2
    simp [lis3de_acceleration_raw_get, lis3de_read_reg, recording,
      h1, h2, e1, e2, List.set]
  · intro e1 e2
    simp [lis3de_acceleration_raw_get, lis3de_read_reg, recording,
      h1, h2, h3, e1, e2, List.set]

/-- Witness for C6 at `cexT` with prior buffer `[7, 7, 7]`: the OUT_Y
read fails, so the result is status 1 with buffer `[5, 99, 7]` and only
the two reads on the bus. -/
theorem lis3de_c6_accel_partial_fill_witness :
    (0 : Int) = 0 ∧
    (1 : Int) ≠ 0 ∧
    lis3de_acceleration_raw_get (recording cexT) (((), [])) [7, 7, 7]
      = ((1, [toInt8 (byte0 [5]), toInt8 (byte0 [99]), 7]),
         ((), [Ev.rd LIS3DE_OUT_X 1, Ev.rd LIS3DE_OUT_Y 1])) :=
  ⟨rfl, by decide,
    (lis3de_c6_accel_partial_fill cexT () 7 7 7 0 [5] () rfl 1 [99] ()
      rfl 0 [0] () rfl).2.1 rfl (by decide)⟩

/-- C9 counterexample: against a fully-successful storing transport,
one call of `lis3de_aux_adc_set` with a non-disable mode issues four
transport calls, not at most two. -/
theorem lis3de_c9_at_most_two_calls_counterexample :
    ¬ ((lis3de_aux_adc_set (recording mockT) (mkStore 0, []))
          LIS3DE_AUX_ON_PADS).2.2.length ≤ 2 := by
  decide

/-- C9 (amended): every simple single-register accessor issues at most
two transport calls for any transport behaviour; the two composite
operations exceed that — `lis3de_aux_adc_set` issues up to four calls
(its cross-register block-data-update enable is itself a
read-modify-write) and `lis3de_acceleration_raw_get` up to three. -/
theorem lis3de_c9_transport_call_budget {σ : Type} (T : Transport σ)
    (s : σ) (v1 : lis3de_odr_t) (v2 : lis3de_fs_t) (v3 : Nat)
    (v4 : lis3de_hpcf_t) (v5 : Nat) (v6 : lis3de_temp_en_t)
    (v7 : Nat) (vp : lis3de_temp_en_t) (p : List Int) :
    (lis3de_data_rate_set (recording T) (s, []) v1).2.2.length ≤ 2 ∧
    (lis3de_full_scale_set (recording T) (s, []) v2).2.2.length ≤ 2 ∧
    (lis3de_block_data_update_set (recording T) (s, []) v3).2.2.length
      ≤ 2 ∧
    (lis3de_fifo_watermark_set (recording T) (s, []) v5).2.2.length
      ≤ 2 ∧
    (lis3de_high_pass_bandwidth_set (recording T) (s, []) v4).2.2.length
      ≤ 2 ∧
    (lis3de_data_rate_get (recording T) (s, [])).2.2.length ≤ 2 ∧
    (lis3de_full_scale_get (recording T) (s, [])).2.2.length ≤ 2 ∧
    (lis3de_fifo_watermark_get (recording T) (s, [])).2.2.length ≤ 2 ∧
    (lis3de_aux_adc_get (recording T) (s, []) vp).2.2.length ≤ 2 ∧
    (lis3de_adc_raw_get (recording T) (s, [])).2.2.length ≤ 2 ∧
    (lis3de_filter_reference_set (recording T) (s, []) v7).2.2.length
      ≤ 2 ∧
    (lis3de_aux_adc_set (recording T) (s, []) v6).2.2.length ≤ 4 ∧
    (lis3de_acceleration_raw_get (recording T) (s, []) p).2.2.length
      ≤ 3 := by
  refine ⟨?_, ?_, ?_, ?_, ?_, ?_, ?_, ?_, ?_, ?_, ?_, ?_, ?_⟩
  · simp only [lis3de_data_rate_set, lis3de_read_reg, lis3de_write_reg,
      recording]
    split <;> simp
  · simp only [lis3de_full_scale_set, lis3de_read_reg, lis3de_write_reg,
      recording]
    split <;> simp
  · simp only [lis3de_block_data_update_set, lis3de_read_reg,
      lis3de_write_reg, recording]
    split <;> simp
  · simp only [lis3de_fifo_watermark_set, lis3de_read_reg,
      lis3de_write_reg, recording]
    split <;> simp
  · simp only [lis3de_high_pass_bandwidth_set, lis3de_read_reg,
      lis3de_write_reg, recording]
    split <;> simp
  · simp [lis3de_data_rate_get, lis3de_read_reg, recording]
  · simp [lis3de_full_scale_get, lis3de_read_reg, recording]
  · simp [lis3de_fifo_watermark_get, lis3de_read_reg, recording]
  · simp [lis3de_aux_adc_get, lis3de_read_reg, recording]
  · simp [lis3de_adc_raw_get, lis3de_read_reg, recording]
  · simp [lis3de_filter_reference_set, lis3de_write_reg, recording]
  · simp only [lis3de_aux_adc_set, lis3de_block_data_update_set,
      lis3de_read_reg, lis3de_write_reg, recording]
    repeat' split
    all_goals simp
  · simp only [lis3de_acceleration_raw_get, lis3de_read_reg, recording]
    repeat' split
    all_goals simp
